import Mathlib

/-!
Shallow embedding of the `tauri-plugin-fcm` capability bridge
(`src/desktop/src-tauri/plugins/tauri-plugin-fcm/src/{mobile.rs, error.rs, lib.rs}`).

The native side (`PluginHandle::run_mobile_plugin`) is an external collaborator;
it is modelled as a black-box function from a command name to either a transport
error (diagnostic string) or a raw JSON response, which the plugin then decodes
into the typed response shape exactly as serde does for the two derive structs.
Each facade operation additionally returns the list of command names sent to the
native layer during the call, so that round-trip counts are provable.
-/

namespace FcmPlugin

/-- Raw JSON values exchanged with the native layer. -/
inductive Json where
  | null : Json
  | bool : Bool → Json
  | num : Int → Json
  | str : String → Json
  | arr : List Json → Json
  | obj : List (String × Json) → Json

/-- Embedding of `error.rs`: `pub enum Error`. -/
inductive Error where
  | NotAvailable : Error
  | PermissionDenied : Error
  | TokenError : String → Error
  | PluginInvoke : String → Error
deriving DecidableEq

/-- Display text of each variant, from the `thiserror` attributes in `error.rs`. -/
def Error.toString : Error → String
  | .NotAvailable => "FCM not available on this platform"
  | .PermissionDenied => "Notification permission denied"
  | .TokenError d => "Failed to get FCM token: " ++ d
  | .PluginInvoke d => "Plugin error: " ++ d

/-- Embedding of `impl Serialize for Error`: `serializer.serialize_str(self.to_string())`,
i.e. the serialized form is the JSON string of the display text. -/
def Error.serializeJson (e : Error) : Json := Json.str e.toString

/-- Looks up a struct field in a JSON object the way serde does: absent fields
yield `none`, a field occurring twice is a `duplicate field` error. -/
def findField (name : String) : List (String × Json) → Except String (Option Json)
  | [] => .ok none
  | (k, v) :: rest =>
    if k = name then
      match findField name rest with
      | .ok none => .ok (some v)
      | .ok (some _) => .error ("duplicate field " ++ name)
      | .error e => .error e
    else findField name rest

/-- Embedding of the derive struct `TokenResponse { token: Option<String> }`. -/
structure TokenResponse where
  token : Option String

/-- Embedding of the derive struct `PermResponse { granted: bool }`. -/
structure PermResponse where
  granted : Bool

/-- serde deserialization of an `Option<String>` field value. -/
def decodeOptString : Json → Except String (Option String)
  | .null => .ok none
  | .str s => .ok (some s)
  | _ => .error "invalid type for field token"

/-- serde deserialization of a `bool` field value. -/
def decodeBool : Json → Except String Bool
  | .bool b => .ok b
  | _ => .error "invalid type for field granted"

/-- serde deserialization of `TokenResponse` from a JSON value: an object whose
optional `token` field is null or a string (absent means `None`). -/
def decodeTokenResponse (j : Json) : Except String TokenResponse :=
  match j with
  | .obj fields =>
    match findField "token" fields with
    | .error e => .error e
    | .ok none => .ok ⟨none⟩
    | .ok (some v) =>
      match decodeOptString v with
      | .error e => .error e
      | .ok t => .ok ⟨t⟩
  | _ => .error "invalid type: map expected"

/-- serde deserialization of `PermResponse` from a JSON value: an object whose
required `granted` field is a boolean. -/
def decodePermResponse (j : Json) : Except String PermResponse :=
  match j with
  | .obj fields =>
    match findField "granted" fields with
    | .error e => .error e
    | .ok none => .error "missing field granted"
    | .ok (some v) =>
      match decodeBool v with
      | .error e => .error e
      | .ok b => .ok ⟨b⟩
  | _ => .error "invalid type: map expected"

/-- The black-box native layer behind a `PluginHandle`: maps a command name to a
transport failure (diagnostic string) or a raw JSON response. -/
def NativeLayer : Type := String → Except String Json

/-- Embedding of `PluginHandle::run_mobile_plugin::<T>(cmd, ())`: one remote call
carrying `cmd`, whose response is decoded into the expected shape; transport and
decode failures alike surface as a diagnostic string. The second component
records the single command sent to the native layer during this invocation. -/
def run_mobile_plugin (native : NativeLayer) (cmd : String)
    (decode : Json → Except String α) : Except String α × List String :=
  (match native cmd with
   | .error e => .error e
   | .ok j => decode j, [cmd])

/-- Embedding of `mobile.rs`: `pub struct Fcm<R>(Option<PluginHandle<R>>)`. -/
structure Fcm where
  handle : Option NativeLayer

/-- Embedding of `Fcm::get_token`. Returns the result together with the list of
commands sent to the native layer during the call. -/
def Fcm.get_token (fcm : Fcm) : Except Error (Option String) × List String :=
  match fcm.handle with
  | none => (.ok none, [])
  | some h =>
    match run_mobile_plugin h "getToken" decodeTokenResponse with
    | (.error e, tr) => (.error (Error.PluginInvoke e), tr)
    | (.ok r, tr) => (.ok r.token, tr)

/-- Embedding of `Fcm::request_permission`. -/
def Fcm.request_permission (fcm : Fcm) : Except Error Bool × List String :=
  match fcm.handle with
  | none => (.ok true, [])
  | some h =>
    match run_mobile_plugin h "requestPermission" decodePermResponse with
    | (.error e, tr) => (.error (Error.PluginInvoke e), tr)
    | (.ok r, tr) => (.ok r.granted, tr)

/-- Embedding of `Fcm::is_permission_granted`. -/
def Fcm.is_permission_granted (fcm : Fcm) : Except Error Bool × List String :=
  match fcm.handle with
  | none => (.ok true, [])
  | some h =>
    match run_mobile_plugin h "isPermissionGranted" decodePermResponse with
    | (.error e, tr) => (.error (Error.PluginInvoke e), tr)
    | (.ok r, tr) => (.ok r.granted, tr)

/-- Compilation target of `mobile.rs::init`. -/
inductive Platform where
  | android : Platform
  | other : Platform

/-- Embedding of `mobile.rs::init`: on Android, `register_android_plugin` is
attempted once and its error propagated by `?`; on every other target the handle
is built directly as `Fcm(None)`. The second component counts registration
attempts. -/
def init (p : Platform) (register : Unit → Except Error NativeLayer) :
    Except Error Fcm × Nat :=
  match p with
  | .android =>
    (match register () with
     | .ok h => .ok ⟨some h⟩
     | .error e => .error e, 1)
  | .other => (.ok ⟨none⟩, 0)

/-- Embedding of the `#[cfg(mobile)]` body of `commands::get_fcm_token`:
failures cross the boundary as the display string. -/
def get_fcm_token (fcm : Fcm) : Except String (Option String) :=
  match (Fcm.get_token fcm).1 with
  | .ok t => .ok t
  | .error e => .error e.toString

/-- Embedding of the `#[cfg(mobile)]` body of `commands::request_notification_permission`. -/
def request_notification_permission (fcm : Fcm) : Except String Bool :=
  match (Fcm.request_permission fcm).1 with
  | .ok g => .ok g
  | .error e => .error e.toString

/-- Embedding of the `#[cfg(mobile)]` body of `commands::is_notification_permission_granted`. -/
def is_notification_permission_granted (fcm : Fcm) : Except String Bool :=
  match (Fcm.is_permission_granted fcm).1 with
  | .ok g => .ok g
  | .error e => .error e.toString

/-- Embedding of the `#[cfg(not(mobile))]` body of `commands::get_fcm_token`. -/
def get_fcm_token_desktop : Except String (Option String) := .ok none

/-- Embedding of the `#[cfg(not(mobile))]` body of `commands::request_notification_permission`. -/
def request_notification_permission_desktop : Except String Bool := .ok true

/-- Embedding of the `#[cfg(not(mobile))]` body of `commands::is_notification_permission_granted`. -/
def is_notification_permission_granted_desktop : Except String Bool := .ok true

/-- One sequential call of `is_permission_granted` with explicit state passing:
the receiver is a shared borrow (`&self`), so the bridge state after the call is
the unchanged input state. -/
def is_permission_granted_call (fcm : Fcm) :
    (Except Error Bool × List String) × Fcm :=
  (Fcm.is_permission_granted fcm, fcm)

/-- Two sequential calls of `is_permission_granted`, the second one on the
bridge state left by the first. -/
def is_permission_granted_twice (fcm : Fcm) :
    (Except Error Bool × List String) × (Except Error Bool × List String) :=
  ((is_permission_granted_call fcm).1,
   (is_permission_granted_call (is_permission_granted_call fcm).2).1)

/-- Helper: appending the empty string on the right is the identity. -/
theorem string_append_empty (s : String) : s ++ "" = s := by
  cases s with
  | mk d => show String.mk (d ++ []) = String.mk d; rw [List.append_nil]

/-- Concrete native layer answering every command successfully: a token `"abc"`
for `getToken`, `granted: false` for the permission commands. -/
def nativeAbc : NativeLayer := fun cmd =>
  if cmd = "getToken" then .ok (.obj [("token", .str "abc")])
  else .ok (.obj [("granted", .bool false)])

/-- Concrete native layer whose every round-trip fails in transport. -/
def nativeFail : NativeLayer := fun _ => .error "boom"

/-- Concrete native layer answering `getToken` with `token: null`. -/
def nativeNullToken : NativeLayer := fun _ => .ok (.obj [("token", .null)])

/-- Helper: the result of `get_token` on a Present handle, as a match over the
dispatch outcome. -/
theorem get_token_present_fst (native : NativeLayer) :
    (Fcm.get_token ⟨some native⟩).1 =
      match (run_mobile_plugin native "getToken" decodeTokenResponse).1 with
      | .error e => .error (Error.PluginInvoke e)
      | .ok r => .ok r.token := by
  simp only [Fcm.get_token]
  cases hrm : run_mobile_plugin native "getToken" decodeTokenResponse with
  | mk x t => cases x <;> rfl

/-- Helper: the result of `request_permission` on a Present handle, as a match
over the dispatch outcome. -/
theorem request_permission_present_fst (native : NativeLayer) :
    (Fcm.request_permission ⟨some native⟩).1 =
      match (run_mobile_plugin native "requestPermission" decodePermResponse).1 with
      | .error e => .error (Error.PluginInvoke e)
      | .ok r => .ok r.granted := by
  simp only [Fcm.request_permission]
  cases hrm : run_mobile_plugin native "requestPermission" decodePermResponse with
  | mk x t => cases x <;> rfl

/-- Helper: the result of `is_permission_granted` on a Present handle, as a
match over the dispatch outcome. -/
theorem is_permission_granted_present_fst (native : NativeLayer) :
    (Fcm.is_permission_granted ⟨some native⟩).1 =
      match (run_mobile_plugin native "isPermissionGranted" decodePermResponse).1 with
      | .error e => .error (Error.PluginInvoke e)
      | .ok r => .ok r.granted := by
  simp only [Fcm.is_permission_granted]
  cases hrm : run_mobile_plugin native "isPermissionGranted" decodePermResponse with
  | mk x t => cases x <;> rfl

/-- C1: with an Absent handle, `get_token` returns `Ok(None)`,
`request_permission` returns `Ok(true)`, `is_permission_granted` returns
`Ok(true)`, and the list of native calls performed is empty on each path. -/
theorem absent_handle_defaults :
    Fcm.get_token ⟨none⟩ = (.ok none, [])
    ∧ Fcm.request_permission ⟨none⟩ = (.ok true, [])
    ∧ Fcm.is_permission_granted ⟨none⟩ = (.ok true, []) :=
  ⟨rfl, rfl, rfl⟩

/-- C2: with a Present handle whose native round-trip succeeds and decodes,
`get_token` returns exactly the decoded `token` field and the two permission
operations return exactly the decoded `granted` field. -/
theorem present_handle_success (native : NativeLayer) (jt jp jq : Json)
    (tok : Option String) (g1 g2 : Bool)
    (ht : native "getToken" = .ok jt)
    (hdt : decodeTokenResponse jt = .ok ⟨tok⟩)
    (hp : native "requestPermission" = .ok jp)
    (hdp : decodePermResponse jp = .ok ⟨g1⟩)
    (hq : native "isPermissionGranted" = .ok jq)
    (hdq : decodePermResponse jq = .ok ⟨g2⟩) :
    (Fcm.get_token ⟨some native⟩).1 = .ok tok
    ∧ (Fcm.request_permission ⟨some native⟩).1 = .ok g1
    ∧ (Fcm.is_permission_granted ⟨some native⟩).1 = .ok g2 := by
  refine ⟨?_, ?_, ?_⟩ <;>
    simp [Fcm.get_token, Fcm.request_permission, Fcm.is_permission_granted,
      run_mobile_plugin, ht, hdt, hp, hdp, hq, hdq]

/-- C2 witness: `present_handle_success` applied to `nativeAbc`. -/
theorem present_handle_success_witness :
    (Fcm.get_token ⟨some nativeAbc⟩).1 = .ok (some "abc")
    ∧ (Fcm.request_permission ⟨some nativeAbc⟩).1 = .ok false
    ∧ (Fcm.is_permission_granted ⟨some nativeAbc⟩).1 = .ok false :=
  present_handle_success nativeAbc (.obj [("token", .str "abc")])
    (.obj [("granted", .bool false)]) (.obj [("granted", .bool false)])
    (some "abc") false false rfl rfl rfl rfl rfl rfl

/-- C3: with a Present handle whose round-trip fails (in transport or in
decoding, with diagnostic text `e`), each operation returns exactly the error
`PluginInvoke e`, whose display text contains `e`. -/
theorem present_handle_failure (native : NativeLayer) (e1 e2 e3 : String)
    (h1 : (run_mobile_plugin native "getToken" decodeTokenResponse).1 = .error e1)
    (h2 : (run_mobile_plugin native "requestPermission" decodePermResponse).1 = .error e2)
    (h3 : (run_mobile_plugin native "isPermissionGranted" decodePermResponse).1 = .error e3) :
    ((Fcm.get_token ⟨some native⟩).1 = .error (Error.PluginInvoke e1)
      ∧ ∃ a b, Error.toString (Error.PluginInvoke e1) = a ++ e1 ++ b)
    ∧ ((Fcm.request_permission ⟨some native⟩).1 = .error (Error.PluginInvoke e2)
      ∧ ∃ a b, Error.toString (Error.PluginInvoke e2) = a ++ e2 ++ b)
    ∧ ((Fcm.is_permission_granted ⟨some native⟩).1 = .error (Error.PluginInvoke e3)
      ∧ ∃ a b, Error.toString (Error.PluginInvoke e3) = a ++ e3 ++ b) := by
  refine ⟨⟨?_, "Plugin error: ", "", ?_⟩, ⟨?_, "Plugin error: ", "", ?_⟩,
    ⟨?_, "Plugin error: ", "", ?_⟩⟩
  · simp only [Fcm.get_token]
    rw [show run_mobile_plugin native "getToken" decodeTokenResponse =
      (.error e1, ["getToken"]) from Prod.ext h1 rfl]
  · rw [string_append_empty]; rfl
  · simp only [Fcm.request_permission]
    rw [show run_mobile_plugin native "requestPermission" decodePermResponse =
      (.error e2, ["requestPermission"]) from Prod.ext h2 rfl]
  · rw [string_append_empty]; rfl
  · simp only [Fcm.is_permission_granted]
    rw [show run_mobile_plugin native "isPermissionGranted" decodePermResponse =
      (.error e3, ["isPermissionGranted"]) from Prod.ext h3 rfl]
  · rw [string_append_empty]; rfl

/-- C3 witness: `present_handle_failure` applied to `nativeFail`. -/
theorem present_handle_failure_witness :
    ((Fcm.get_token ⟨some nativeFail⟩).1 = .error (Error.PluginInvoke "boom")
      ∧ ∃ a b, Error.toString (Error.PluginInvoke "boom") = a ++ "boom" ++ b)
    ∧ ((Fcm.request_permission ⟨some nativeFail⟩).1 = .error (Error.PluginInvoke "boom")
      ∧ ∃ a b, Error.toString (Error.PluginInvoke "boom") = a ++ "boom" ++ b)
    ∧ ((Fcm.is_permission_granted ⟨some nativeFail⟩).1 = .error (Error.PluginInvoke "boom")
      ∧ ∃ a b, Error.toString (Error.PluginInvoke "boom") = a ++ "boom" ++ b) :=
  present_handle_failure nativeFail "boom" "boom" "boom" rfl rfl rfl

/-- C4: on Android, `init` attempts registration once and either yields a
Present handle or propagates the registration error — a successful Android
`init` never carries an Absent handle; on every other platform registration is
never attempted (zero attempts) and `init` yields an Absent handle. -/
theorem init_platform_behavior (register : Unit → Except Error NativeLayer) :
    (∀ h, register () = .ok h → init Platform.android register = (.ok ⟨some h⟩, 1))
    ∧ (∀ e, register () = .error e → init Platform.android register = (.error e, 1))
    ∧ (∀ f n, init Platform.android register = (.ok f, n) → ∃ h, f.handle = some h)
    ∧ init Platform.other register = (.ok ⟨none⟩, 0) := by
  refine ⟨fun h hr => ?_, fun e hr => ?_, fun f n hi => ?_, rfl⟩
  · simp [init, hr]
  · simp [init, hr]
  · simp only [init] at hi
    cases hr : register () with
    | ok h =>
      rw [hr] at hi
      simp only [Prod.mk.injEq] at hi
      obtain ⟨h1, -⟩ := hi
      injection h1 with h2
      exact ⟨h, by rw [← h2]⟩
    | error e =>
      rw [hr] at hi
      simp only [Prod.mk.injEq] at hi
      exact Except.noConfusion hi.1

/-- C4 witness: `init_platform_behavior` applied to a registration that
succeeds with `nativeAbc`. -/
theorem init_platform_behavior_witness :
    init Platform.android (fun _ => .ok nativeAbc) = (.ok ⟨some nativeAbc⟩, 1)
    ∧ init Platform.other (fun _ => .ok nativeAbc) = (.ok ⟨none⟩, 0) :=
  ⟨(init_platform_behavior (fun _ => .ok nativeAbc)).1 nativeAbc rfl,
   (init_platform_behavior (fun _ => .ok nativeAbc)).2.2.2⟩

/-- C5: each externally invocable command returns the facade result with any
error replaced by its display string, and the serialization of `Error` is
exactly the JSON string of that same display text. -/
theorem command_boundary_stringifies (fcm : Fcm) :
    get_fcm_token fcm = Except.mapError Error.toString (Fcm.get_token fcm).1
    ∧ request_notification_permission fcm
      = Except.mapError Error.toString (Fcm.request_permission fcm).1
    ∧ is_notification_permission_granted fcm
      = Except.mapError Error.toString (Fcm.is_permission_granted fcm).1
    ∧ ∀ e : Error, Error.serializeJson e = Json.str (Error.toString e) := by
  refine ⟨?_, ?_, ?_, fun e => rfl⟩
  · cases h : (Fcm.get_token fcm).1 <;>
      simp [get_fcm_token, h, Except.mapError]
  · cases h : (Fcm.request_permission fcm).1 <;>
      simp [request_notification_permission, h, Except.mapError]
  · cases h : (Fcm.is_permission_granted fcm).1 <;>
      simp [is_notification_permission_granted, h, Except.mapError]

/-- C6: the desktop command bodies are equal to the mobile command bodies
applied to the Absent handle, and each desktop command succeeds, so no caller
ever receives an error on a platform without a native bridge. -/
theorem desktop_refines_absent :
    get_fcm_token_desktop = get_fcm_token ⟨none⟩
    ∧ request_notification_permission_desktop = request_notification_permission ⟨none⟩
    ∧ is_notification_permission_granted_desktop = is_notification_permission_granted ⟨none⟩
    ∧ get_fcm_token_desktop = .ok none
    ∧ request_notification_permission_desktop = .ok true
    ∧ is_notification_permission_granted_desktop = .ok true :=
  ⟨rfl, rfl, rfl, rfl, rfl, rfl⟩

/-- C7: whichever handle and native behavior, any error returned by a facade
operation is a `PluginInvoke`; `NotAvailable`, `PermissionDenied` and
`TokenError` are never produced. -/
theorem only_plugin_invoke_errors (fcm : Fcm) (e : Error)
    (h : (Fcm.get_token fcm).1 = .error e
      ∨ (Fcm.request_permission fcm).1 = .error e
      ∨ (Fcm.is_permission_granted fcm).1 = .error e) :
    ∃ s, e = Error.PluginInvoke s := by
  obtain ⟨handle⟩ := fcm
  cases handle with
  | none =>
    rcases h with h | h | h <;> exact absurd h (by simp [Fcm.get_token,
      Fcm.request_permission, Fcm.is_permission_granted])
  | some native =>
    rcases h with h | h | h
    · rw [get_token_present_fst] at h
      cases hd : (run_mobile_plugin native "getToken" decodeTokenResponse).1 with
      | error d =>
        rw [hd] at h
        injection h with h1
        exact ⟨d, h1.symm⟩
      | ok r => rw [hd] at h; exact Except.noConfusion h
    · rw [request_permission_present_fst] at h
      cases hd : (run_mobile_plugin native "requestPermission" decodePermResponse).1 with
      | error d =>
        rw [hd] at h
        injection h with h1
        exact ⟨d, h1.symm⟩
      | ok r => rw [hd] at h; exact Except.noConfusion h
    · rw [is_permission_granted_present_fst] at h
      cases hd : (run_mobile_plugin native "isPermissionGranted" decodePermResponse).1 with
      | error d =>
        rw [hd] at h
        injection h with h1
        exact ⟨d, h1.symm⟩
      | ok r => rw [hd] at h; exact Except.noConfusion h

/-- C7 witness: `only_plugin_invoke_errors` applied to the failing native
layer, whose `get_token` error is concretely `PluginInvoke "boom"`. -/
theorem only_plugin_invoke_errors_witness :
    ∃ s, Error.PluginInvoke "boom" = Error.PluginInvoke s :=
  only_plugin_invoke_errors ⟨some nativeFail⟩ (Error.PluginInvoke "boom")
    (Or.inl rfl)

/-- C8: with a Present handle, every invocation of a facade operation sends
exactly its one command to the native layer — also on the failure path, so no
retry ever happens within an invocation. -/
theorem one_native_round_trip (native : NativeLayer) :
    (Fcm.get_token ⟨some native⟩).2 = ["getToken"]
    ∧ (Fcm.request_permission ⟨some native⟩).2 = ["requestPermission"]
    ∧ (Fcm.is_permission_granted ⟨some native⟩).2 = ["isPermissionGranted"] := by
  refine ⟨?_, ?_, ?_⟩
  · simp only [Fcm.get_token]
    cases hrm : run_mobile_plugin native "getToken" decodeTokenResponse with
    | mk x t =>
      have ht : t = ["getToken"] := by
        have := congrArg Prod.snd hrm
        exact this.symm.trans rfl
      cases x <;> simp [ht]
  · simp only [Fcm.request_permission]
    cases hrm : run_mobile_plugin native "requestPermission" decodePermResponse with
    | mk x t =>
      have ht : t = ["requestPermission"] := by
        have := congrArg Prod.snd hrm
        exact this.symm.trans rfl
      cases x <;> simp [ht]
  · simp only [Fcm.is_permission_granted]
    cases hrm : run_mobile_plugin native "isPermissionGranted" decodePermResponse with
    | mk x t =>
      have ht : t = ["isPermissionGranted"] := by
        have := congrArg Prod.snd hrm
        exact this.symm.trans rfl
      cases x <;> simp [ht]

/-- C9: two sequential calls of `is_permission_granted` on the same bridge
yield the same result, and a call leaves the bridge state unchanged — the
facade holds no mutable state. -/
theorem is_permission_granted_idempotent (fcm : Fcm) :
    (is_permission_granted_twice fcm).1 = (is_permission_granted_twice fcm).2
    ∧ (is_permission_granted_call fcm).2 = fcm :=
  ⟨rfl, rfl⟩

/-- C10: a Present handle whose native layer answers `getToken` with
`token: null` makes `get_token` return `Ok(None)`, the very value the Absent
handle returns. -/
theorem null_token_matches_absent (native : NativeLayer)
    (h : native "getToken" = .ok (Json.obj [("token", Json.null)])) :
    (Fcm.get_token ⟨some native⟩).1 = .ok none
    ∧ (Fcm.get_token ⟨some native⟩).1 = (Fcm.get_token ⟨none⟩).1 := by
  have hmain : (Fcm.get_token ⟨some native⟩).1 = .ok none := by
    rw [get_token_present_fst]
    have : (run_mobile_plugin native "getToken" decodeTokenResponse).1
        = .ok ⟨none⟩ := by
      simp only [run_mobile_plugin, h]
      rfl
    rw [this]
  exact ⟨hmain, hmain.trans rfl⟩

/-- C10 witness: `null_token_matches_absent` applied to `nativeNullToken`. -/
theorem null_token_matches_absent_witness :
    (Fcm.get_token ⟨some nativeNullToken⟩).1 = .ok none
    ∧ (Fcm.get_token ⟨some nativeNullToken⟩).1 = (Fcm.get_token ⟨none⟩).1 :=
  null_token_matches_absent nativeNullToken rfl

end FcmPlugin
